import Mathlib

/-!
Verification of the pediatric-care risk evaluator, prompt assembler and
dataset loader of this repository, as a shallow embedding in Lean 4.

The graph store is modelled as explicit record lists; each Cypher query
wrapped by a Python method becomes a Lean function over that state.
Timestamps are integers measured in hours, so the 24-hour window of
`check_emergency_status` is the condition `reported_date > now - 24`.
-/

set_option linter.unusedVariables false

/-! ## String machinery: Cypher toLower and CONTAINS -/

/-- Lowercased character list of a string, modelling Cypher `toLower`. -/
def lowerChars (s : String) : List Char :=
  s.toList.map Char.toLower

/-- Tests whether the first character list is an initial run of the second. -/
def startsWithChars : List Char → List Char → Bool
  | [], _ => true
  | _ :: _, [] => false
  | a :: as, b :: bs => a == b && startsWithChars as bs

/-- Tests whether the first character list occurs contiguously inside the
second, modelling substring containment. -/
def hasSubChars : List Char → List Char → Bool
  | n, [] => n.isEmpty
  | n, c :: cs => startsWithChars n (c :: cs) || hasSubChars n cs

/-- Cypher `toLower(hay) CONTAINS toLower(needle)`: case-insensitive
substring containment. -/
def containsLower (hay needle : String) : Bool :=
  hasSubChars (lowerChars needle) (lowerChars hay)

/-! ## Data model of the record store (src/neo4j_client.py) -/

/-- One HAS_SYMPTOM relationship, created by `log_symptom`. -/
structure SymptomReport where
  name : String
  severity : Int
  reportedDate : Int
  notes : String
deriving DecidableEq

/-- One TAKES relationship, created by `add_medication`. -/
structure TakesRel where
  medication : String
  dosage : String
  frequency : String
  startDate : String
  active : Bool
deriving DecidableEq

/-- One INTERACTS_WITH relationship between two medication nodes, stored in
the direction `med1 -> med2`. -/
structure InteractionFact where
  med1 : String
  med2 : String
  severity : String
  description : String
deriving DecidableEq

/-- A Child node. -/
structure Child where
  childId : String
  name : String
  age : Int
  weightKg : String
  allergies : List String
deriving DecidableEq

/-- The graph state: Child nodes, Medication node names, Symptom node names,
TAKES and HAS_SYMPTOM relationships (each tagged with the child id of its
source node) and INTERACTS_WITH relationships. -/
structure Store where
  children : List Child
  meds : List String
  symptomNodes : List String
  takes : List (String × TakesRel)
  symptoms : List (String × SymptomReport)
  interactions : List InteractionFact
deriving DecidableEq

/-- The store with no records at all. -/
def emptyStore : Store :=
  { children := [], meds := [], symptomNodes := [], takes := [], symptoms := [],
    interactions := [] }

/-- `MATCH (c:Child {child_id: $child_id})` followed by `single()`: the first
Child node carrying the identifier (the data model keeps it unique). -/
def getChild (st : Store) (childId : String) : Option Child :=
  st.children.find? (fun c => c.childId == childId)

/-! ## Risk evaluator: emergency status (check_emergency_status) -/

/-- The rows matched by the emergency query: HAS_SYMPTOM relationships of the
child whose `reported_date` lies strictly inside the trailing 24-hour
window (`h.reported_date > datetime() - duration(PT24H)`). -/
def windowedReports (st : Store) (childId : String) (now : Int) : List SymptomReport :=
  (st.symptoms.filter
    (fun p => p.1 == childId && decide (p.2.reportedDate > now - 24))).map Prod.snd

/-- A `{name, severity}` map collected by the emergency query. -/
structure NamedSeverity where
  name : String
  severity : Int
deriving DecidableEq

/-- Return value of `check_emergency_status`. -/
structure EmergencyStatus where
  is_emergency : Bool
  critical_symptoms : List NamedSeverity
  recent_symptoms : List NamedSeverity
deriving DecidableEq

/-- Python `check_emergency_status`: when the query matches no row at all the
method returns the fixed default; otherwise `recent_symptoms` collects the
windowed reports, `critical_symptoms` keeps those of severity at least 8,
and `is_emergency` says whether the critical list is non-empty. -/
def check_emergency_status (st : Store) (childId : String) (now : Int) :
    EmergencyStatus :=
  let rows := windowedReports st childId now
  if rows.isEmpty then
    { is_emergency := false, critical_symptoms := [], recent_symptoms := [] }
  else
    let recent := rows.map (fun r => NamedSeverity.mk r.name r.severity)
    let critical := recent.filter (fun s => decide (s.severity ≥ 8))
    { is_emergency := !critical.isEmpty, critical_symptoms := critical,
      recent_symptoms := recent }

/-! ## Risk evaluator: medication safety (check_medication_safety) -/

/-- One row of the interaction query. -/
structure InteractionEntry where
  current_med : String
  severity : String
  description : String
deriving DecidableEq

/-- Return value of `check_medication_safety`. -/
structure SafetyResult where
  safe : Bool
  has_allergy : Bool
  allergies : List String
  interactions : List InteractionEntry
deriving DecidableEq

/-- The allergy query: matches the child only when some recorded allergy is a
case-insensitive substring of the candidate medication name
(`toLower($medication_name) CONTAINS toLower(allergy)`); on a match the row
carries the allergy list. -/
def allergyRow (st : Store) (childId medicationName : String) :
    Option (List String) :=
  match getChild st childId with
  | some c =>
      if c.allergies.any (fun a => containsLower medicationName a) then
        some c.allergies
      else none
  | none => none

/-- The interaction query: one row per TAKES relationship of the child (the
`active` flag is not consulted) and per INTERACTS_WITH relationship, matched
in either direction, between the taken medication and the candidate; the
candidate must exist as a Medication node. -/
def interactionRows (st : Store) (childId medicationName : String) :
    List InteractionEntry :=
  if st.meds.contains medicationName then
    (st.takes.filter (fun p => p.1 == childId)).flatMap (fun p =>
      (st.interactions.filter (fun i =>
        (i.med1 == p.2.medication && i.med2 == medicationName) ||
        (i.med1 == medicationName && i.med2 == p.2.medication))).map (fun i =>
          InteractionEntry.mk p.2.medication i.severity i.description))
  else []

/-- Python `check_medication_safety`: combines the allergy row and the
interaction rows into the returned verdict. -/
def check_medication_safety (st : Store) (childId medicationName : String) :
    SafetyResult :=
  let allergyRecord := allergyRow st childId medicationName
  let interactions := interactionRows st childId medicationName
  { safe := allergyRecord.isNone && interactions.isEmpty,
    has_allergy := allergyRecord.isSome,
    allergies := allergyRecord.getD [],
    interactions := interactions }

/-! ## Symptom logging (log_symptom) -/

/-- Python `log_symptom`: requires the child to exist, merges the Symptom
node, and creates a fresh HAS_SYMPTOM relationship carrying the severity
unchanged; no validation of the severity is performed. -/
def log_symptom (st : Store) (childId symptomName : String) (severity : Int)
    (notes : String) (now : Int) : Store :=
  match getChild st childId with
  | none => st
  | some _ =>
      { st with
        symptomNodes :=
          if st.symptomNodes.contains symptomName then st.symptomNodes
          else st.symptomNodes ++ [symptomName],
        symptoms :=
          st.symptoms ++ [(childId, SymptomReport.mk symptomName severity now notes)] }

/-! ## Concrete records used by witnesses and counterexamples -/

/-- The two INTERACTS_WITH relationships written by
`initialize_knowledge_graph`, in the stored direction. -/
def knowledgeGraphFacts : List InteractionFact :=
  [InteractionFact.mk "Ibuprofen" "Aspirin" "moderate" "Increased bleeding risk",
   InteractionFact.mk "Amoxicillin" "Warfarin" "high" "May increase bleeding"]

/-- The end-to-end scenario store of the spec: Emma, allergic to penicillin,
actively taking Ibuprofen, with one recent fever report of severity 7. -/
def emmaStore : Store :=
  { children :=
      [Child.mk "emma_001" "Emma" 5 "18.5" ["penicillin"]],
    meds := ["Ibuprofen", "Aspirin", "Amoxicillin", "Warfarin",
             "Amoxicillin-Penicillin"],
    symptomNodes := ["fever_c"],
    takes :=
      [("emma_001", TakesRel.mk "Ibuprofen" "100mg" "as needed" "2025-01-01" true)],
    symptoms := [("emma_001", SymptomReport.mk "fever_c" 7 90 "")],
    interactions := knowledgeGraphFacts }

/-- A store whose only TAKES relationship is inactive, while an interaction
fact links the taken medication to the candidate Ibuprofen. -/
def inactiveTakesStore : Store :=
  { children := [Child.mk "liam_001" "Liam" 7 "22.0" []],
    meds := ["Ibuprofen", "Aspirin"],
    symptomNodes := [],
    takes :=
      [("liam_001", TakesRel.mk "Aspirin" "50mg" "daily" "2025-01-01" false)],
    symptoms := [],
    interactions :=
      [InteractionFact.mk "Ibuprofen" "Aspirin" "moderate" "Increased bleeding risk"] }

/-! ## Prompt assembler data
(src/health_assistant/pediatric_query_constructor.py)

The graph-data argument is a Python dict; each key is modelled as an
optional field (absent key = none) and each record field read through
dict.get is modelled as an optional value rendered with its Python default
(the string None when no default is given). -/

/-- The single-quote character as a string, used by the Python repr of a string list. -/
def squoteStr : String :=
  String.mk [Char.ofNat 39]

/-- Python repr of a list of strings, as interpolated by an f-string. -/
def pyListRepr (l : List String) : String :=
  "[" ++ String.intercalate ", " (l.map (fun a => squoteStr ++ a ++ squoteStr)) ++ "]"

/-- Renders an optional string the way a Python f-string renders
dict.get with the given default. -/
def optStr (o : Option String) (d : String) : String :=
  o.getD d

/-- Renders an optional integer the way a Python f-string renders
dict.get with the given default. -/
def optIntStr (o : Option Int) (d : String) : String :=
  match o with
  | some i => toString i
  | none => d

/-- The child entry of the graph-data dict. -/
structure ChildInfo where
  name : Option String
  age : Option Int
  weight_kg : Option String
  allergies : List String
deriving DecidableEq

/-- One entry of the medications list. -/
structure MedInfo where
  medication : Option String
  dosage : Option String
  frequency : Option String
deriving DecidableEq

/-- One entry of the symptoms or critical-symptoms list. -/
structure SympInfo where
  name : Option String
  severity : Option Int
deriving DecidableEq

/-- The emergency-status entry; a missing is_emergency key is falsy and is
modelled as false. -/
structure EmergencyInfo where
  is_emergency : Bool
  critical_symptoms : List SympInfo
deriving DecidableEq

/-- One entry of the appointments list; apptType models the Python key
named type. -/
structure ApptInfo where
  date : Option String
  time : Option String
  apptType : Option String
  doctor : Option String
deriving DecidableEq

/-- The medication-safety entry; the safe key is read with default True,
the other keys with falsy defaults. -/
structure SafetyInfo where
  safe : Option Bool
  has_allergy : Bool
  allergies : List String
  interactions : List InteractionEntry
deriving DecidableEq

/-- The graph-data dict passed to the query constructor. -/
structure GraphData where
  child : Option ChildInfo
  medications : Option (List MedInfo)
  symptoms : Option (List SympInfo)
  emergency_status : Option EmergencyInfo
  appointments : Option (List ApptInfo)
  medication_safety : Option SafetyInfo
deriving DecidableEq

/-- The medication line of the rendering. -/
def medLine (m : MedInfo) : String :=
  "- " ++ optStr m.medication "None" ++ ": " ++ optStr m.dosage "None" ++
    " - " ++ optStr m.frequency "None"

/-- The symptom line of the rendering. -/
def sympLine (s : SympInfo) : String :=
  "- " ++ optStr s.name "None" ++ ": Severity " ++ optIntStr s.severity "None" ++
    "/10"

/-- The critical-symptom line of the emergency block. -/
def emergLine (s : SympInfo) : String :=
  "   - " ++ optStr s.name "None" ++ " (severity: " ++
    optIntStr s.severity "None" ++ ")"

/-- The appointment line of the rendering. -/
def apptLine (a : ApptInfo) : String :=
  "- " ++ optStr a.date "None" ++ " at " ++ optStr a.time "None" ++ ": " ++
    optStr a.apptType "None" ++ " with Dr. " ++ optStr a.doctor "None"

/-- The drug-interaction line of the safety block (the Python source builds
it from two adjacent f-strings, leaving a space before the parenthesis). -/
def interactionLine (e : InteractionEntry) : String :=
  "      * " ++ e.current_med ++ ": " ++ e.description ++ " (Severity: " ++
    e.severity ++ ")"

/-- Child block of `_format_graph_data`: the consecutive conditional
appends the Python source performs on the sections accumulator for the
child key. -/
def childStep (c : Option ChildInfo) (sections : List String) : List String :=
  match c with
  | none => sections
  | some c =>
      let sections := sections ++ ["👶 CHILD INFORMATION:"]
      let sections := sections ++ ["- Name: " ++ optStr c.name "Unknown"]
      let sections := sections ++
        ["- Age: " ++ optIntStr c.age "Unknown" ++ " years old"]
      let sections := sections ++
        ["- Weight: " ++ optStr c.weight_kg "Unknown" ++ " kg"]
      let sections :=
        if c.allergies.isEmpty then sections
        else sections ++
          ["- ⚠️ ALLERGIES: " ++ String.intercalate ", " c.allergies]
      sections ++ [""]

/-- Medications block of `_format_graph_data` on the accumulator: skipped
when the key is absent or the list is falsy. -/
def medStep (m : Option (List MedInfo)) (sections : List String) : List String :=
  match m with
  | some (m0 :: ms) =>
      let sections := sections ++ ["💊 CURRENT MEDICATIONS:"]
      let sections := sections ++ (m0 :: ms).map medLine
      sections ++ [""]
  | _ => sections

/-- Symptoms block of `_format_graph_data` on the accumulator. -/
def sympStep (s : Option (List SympInfo)) (sections : List String) : List String :=
  match s with
  | some (s0 :: ss) =>
      let sections := sections ++ ["🩺 RECENT SYMPTOMS (last 24h):"]
      let sections := sections ++ (s0 :: ss).map sympLine
      sections ++ [""]
  | _ => sections

/-- Emergency block of `_format_graph_data` on the accumulator: only
rendered when is_emergency is truthy. -/
def emergStep (e : Option EmergencyInfo) (sections : List String) : List String :=
  match e with
  | none => sections
  | some e =>
      if e.is_emergency then
        let sections :=
          sections ++ ["🚨 EMERGENCY STATUS: CRITICAL SYMPTOMS DETECTED"]
        let sections := sections ++ e.critical_symptoms.map emergLine
        sections ++ [""]
      else sections

/-- Appointments block of `_format_graph_data` on the accumulator. -/
def apptStep (a : Option (List ApptInfo)) (sections : List String) : List String :=
  match a with
  | some (a0 :: as_) =>
      let sections := sections ++ ["📅 UPCOMING APPOINTMENTS:"]
      let sections := sections ++ (a0 :: as_).map apptLine
      sections ++ [""]
  | _ => sections

/-- Medication-safety block of `_format_graph_data` on the accumulator:
only rendered when the safe key, read with default True, is falsy. -/
def safetyStep (f : Option SafetyInfo) (sections : List String) : List String :=
  match f with
  | none => sections
  | some s =>
      if s.safe.getD true then sections
      else
        let sections := sections ++ ["⚠️ MEDICATION SAFETY ALERT:"]
        let sections :=
          if s.has_allergy then
            sections ++ ["   - ALLERGY RISK: " ++ pyListRepr s.allergies]
          else sections
        let sections :=
          if s.interactions.isEmpty then sections
          else
            (sections ++ ["   - DRUG INTERACTIONS:"]) ++
              s.interactions.map interactionLine
        sections ++ [""]

/-- Python `_format_graph_data`, body of the section loop: the sections
accumulator starts empty and each dict key grows it in the fixed source
order. -/
def graphSections (g : GraphData) : List String :=
  let sections : List String := []
  let sections := childStep g.child sections
  let sections := medStep g.medications sections
  let sections := sympStep g.symptoms sections
  let sections := emergStep g.emergency_status sections
  let sections := apptStep g.appointments sections
  let sections := safetyStep g.medication_safety sections
  sections

/-- Python `_format_graph_data`: a falsy graph-data argument and an empty
sections list both yield the fixed placeholder; otherwise the sections are
joined with newlines. -/
def format_graph_data (gd : Option GraphData) : String :=
  match gd with
  | none => "No graph data available."
  | some g =>
      let sections := graphSections g
      if sections.isEmpty then "No graph data available."
      else String.intercalate "\n" sections

/-! ## Per-section line blocks, stated for the claim about ordering -/

/-- The child-information block of the rendering. -/
def childLines (g : GraphData) : List String :=
  match g.child with
  | none => []
  | some c =>
      ["👶 CHILD INFORMATION:",
       "- Name: " ++ optStr c.name "Unknown",
       "- Age: " ++ optIntStr c.age "Unknown" ++ " years old",
       "- Weight: " ++ optStr c.weight_kg "Unknown" ++ " kg"] ++
      (if c.allergies.isEmpty then []
       else ["- ⚠️ ALLERGIES: " ++ String.intercalate ", " c.allergies]) ++
      [""]

/-- The medications block of the rendering. -/
def medLines (g : GraphData) : List String :=
  match g.medications with
  | some (m :: ms) =>
      ["💊 CURRENT MEDICATIONS:"] ++ (m :: ms).map medLine ++ [""]
  | _ => []

/-- The symptoms block of the rendering. -/
def sympLines (g : GraphData) : List String :=
  match g.symptoms with
  | some (s :: ss) =>
      ["🩺 RECENT SYMPTOMS (last 24h):"] ++ (s :: ss).map sympLine ++ [""]
  | _ => []

/-- The emergency block of the rendering. -/
def emergLines (g : GraphData) : List String :=
  match g.emergency_status with
  | none => []
  | some e =>
      if e.is_emergency then
        ["🚨 EMERGENCY STATUS: CRITICAL SYMPTOMS DETECTED"] ++
          e.critical_symptoms.map emergLine ++ [""]
      else []

/-- The appointments block of the rendering. -/
def apptLines (g : GraphData) : List String :=
  match g.appointments with
  | some (a :: as_) =>
      ["📅 UPCOMING APPOINTMENTS:"] ++ (a :: as_).map apptLine ++ [""]
  | _ => []

/-- The medication-safety block of the rendering. -/
def safetyLines (g : GraphData) : List String :=
  match g.medication_safety with
  | none => []
  | some s =>
      if s.safe.getD true then []
      else
        ["⚠️ MEDICATION SAFETY ALERT:"] ++
        (if s.has_allergy then
          ["   - ALLERGY RISK: " ++ pyListRepr s.allergies]
         else []) ++
        (if s.interactions.isEmpty then []
         else ["   - DRUG INTERACTIONS:"] ++ s.interactions.map interactionLine) ++
        [""]

/-! ## Prompt assembler: create_query -/

/-- Error raised by `create_query` on a blank question (the ValueError named
EmptyQueryError by the spec taxonomy). -/
inductive QueryError where
  | emptyQuery
deriving DecidableEq

/-- Python str.strip character class. -/
def pyIsSpaceChar (c : Char) : Bool :=
  c == ' ' || c == '\t' || c == '\n' || c == '\r' || c == '\x0b' || c == '\x0c'

/-- Characters remaining after Python str.strip. -/
def pyStripChars (s : String) : List Char :=
  ((s.toList.dropWhile pyIsSpaceChar).reverse.dropWhile pyIsSpaceChar).reverse

/-- The guard `not query or not query.strip()` of `create_query`. -/
def isBlankQuery (q : String) : Bool :=
  q == "" || (pyStripChars q).isEmpty

/-- The default applied to a falsy profile argument. -/
def profileStr (profile : Option String) : String :=
  match profile with
  | some p => if p.isEmpty then "No profile information available yet." else p
  | none => "No profile information available yet."

/-- The context block: a truthy context is suffixed with a blank line, a
falsy one is replaced by the fixed placeholder. -/
def contextBlock (context : Option String) : String :=
  match context with
  | some c => if c.isEmpty then "No recent conversation history." else c ++ "\n\n"
  | none => "No recent conversation history."

/-- Python `create_query`, parameterized by the template interpolation step
`fmt` (modelling `self.prompt_template.format(...)`, whose static template
text lives outside the evaluable logic): a blank question raises before
anything is rendered; otherwise a successful interpolation is returned
verbatim, and an interpolation failure falls back to the degraded
concatenation of the four rendered inputs. -/
def createQueryWith
    (fmt : String → String → String → String → String → Option String)
    (currentDate : String) (profile context : Option String)
    (graphData : Option GraphData) (query : String) :
    Except QueryError String :=
  if isBlankQuery query then Except.error QueryError.emptyQuery
  else
    let p := profileStr profile
    let cb := contextBlock context
    let g := format_graph_data graphData
    match fmt currentDate p cb g query with
    | some s => Except.ok s
    | none => Except.ok (p ++ "\n\n" ++ cb ++ "\n\n" ++ g ++ "\n\n" ++ query)

/-! ## Dataset ingestion (src/load_dataset_to_neo4j.py)

Each MERGE-then-SET block on a uniquely keyed node is modelled as a keyed
replace-or-append on a node list; each MERGE of a relationship as an
add-if-absent; the CREATE of the dialogue loop as an unconditional append.
Property values carried over from the json records are modelled opaquely as
optional strings. -/

/-- MERGE on a key followed by SET of all properties: replace the keyed node
if present, append it otherwise. -/
def upsertBy {α : Type} (key : α → String) : List α → α → List α
  | [], r => [r]
  | h :: t, r => if key h == key r then r :: t else h :: upsertBy key t r

/-- One loader loop over its records, upserting each in order. -/
def loadBy {α : Type} (key : α → String) (st : List α) (recs : List α) :
    List α :=
  recs.foldl (upsertBy key) st

/-- Node lookup by key. -/
def lookupBy {α : Type} (key : α → String) (l : List α) (k : String) :
    Option α :=
  l.find? (fun n => key n == k)

/-- MERGE of a relationship: added only when absent. -/
def mergeRel (l : List (String × String)) (r : String × String) :
    List (String × String) :=
  if l.contains r then l else l ++ [r]

/-- A loop of relationship MERGEs. -/
def loadRels (l : List (String × String)) (rs : List (String × String)) :
    List (String × String) :=
  rs.foldl mergeRel l

/-- State touched by a loader loop that writes two node kinds joined by a
relationship (the symptom-rule and aftercare loops). -/
structure TwoNodeState (α β : Type) where
  nodesA : List α
  nodesB : List β
  rels : List (String × String)

/-- One iteration of such a loop: upsert both nodes and merge the
relationship. -/
def twoNodeStep {α β ρ : Type} (keyA : α → String) (keyB : β → String)
    (mkA : ρ → α) (mkB : ρ → β) (mkRel : ρ → String × String)
    (st : TwoNodeState α β) (r : ρ) : TwoNodeState α β :=
  { nodesA := upsertBy keyA st.nodesA (mkA r),
    nodesB := upsertBy keyB st.nodesB (mkB r),
    rels := mergeRel st.rels (mkRel r) }

/-- The whole loop over its records. -/
def twoNodeLoad {α β ρ : Type} (keyA : α → String) (keyB : β → String)
    (mkA : ρ → α) (mkB : ρ → β) (mkRel : ρ → String × String)
    (st : TwoNodeState α β) (recs : List ρ) : TwoNodeState α β :=
  recs.foldl (twoNodeStep keyA keyB mkA mkB mkRel) st

/-- One medication-guide record, merged on the drug name with all listed
properties set. -/
structure MedGuide where
  drug : String
  forms : List String
  use_desc : Option String
  safety_info : Option String
  storage : Option String
  notes : Option String
deriving DecidableEq

/-- The medication-guide load loop. -/
def loadMedicationGuides (st recs : List MedGuide) : List MedGuide :=
  loadBy MedGuide.drug st recs

/-- A Symptom node written by the symptom-rule loop, with its constant
source property. -/
structure SymNode where
  name : String
  source : String
deriving DecidableEq

/-- One symptom-rule record, merged on the symptom name. -/
structure SymptomRuleRec where
  symptom_name : String
  mild_lt : Option String
  high_gte : Option String
  spike_gte : Option String
  threshold_gte : Option String
  boolFlag : Option String
  advice_mild : Option String
  advice_high : Option String
  advice_spike : Option String
  advice : Option String
deriving DecidableEq

/-- The symptom-rule load loop: per record, MERGE the Symptom node, MERGE
the SymptomRule node keyed by the same name, MERGE the HAS_RULE
relationship. -/
def loadSymptomRules (st : TwoNodeState SymNode SymptomRuleRec)
    (recs : List SymptomRuleRec) : TwoNodeState SymNode SymptomRuleRec :=
  twoNodeLoad SymNode.name SymptomRuleRec.symptom_name
    (fun r => SymNode.mk r.symptom_name "dataset") (fun r => r)
    (fun r => (r.symptom_name, r.symptom_name)) st recs

/-- A Condition node written by the aftercare loop. -/
structure CondNode where
  name : String
  category : Option String
  age_range : Option String
deriving DecidableEq

/-- An AfterCareGuide node, keyed by its condition name. -/
structure AfterCareGuide where
  condition : String
  overview : Option String
  pain_management : Option String
  activity : Option String
  diet : Option String
  wound_care : Option String
  red_flags : List String
  follow_up : Option String
deriving DecidableEq

/-- One aftercare json record, carrying both the condition properties and
the guide properties. -/
structure AftercareRecord where
  condition : String
  category : Option String
  age_range : Option String
  overview : Option String
  pain_management : Option String
  activity : Option String
  diet : Option String
  wound_care : Option String
  red_flags : List String
  follow_up : Option String
deriving DecidableEq

/-- The aftercare load loop: per record, MERGE the Condition node, MERGE the
AfterCareGuide node keyed by the condition name, MERGE the HAS_AFTERCARE
relationship. -/
def loadAftercare (st : TwoNodeState CondNode AfterCareGuide)
    (recs : List AftercareRecord) : TwoNodeState CondNode AfterCareGuide :=
  twoNodeLoad CondNode.name AfterCareGuide.condition
    (fun r => CondNode.mk r.condition r.category r.age_range)
    (fun r => AfterCareGuide.mk r.condition r.overview r.pain_management
      r.activity r.diet r.wound_care r.red_flags r.follow_up)
    (fun r => (r.condition, r.condition)) st recs

/-- One SampleDialogue node as CREATEd by the dialogue loop. -/
structure Dialogue where
  query : Option String
  expected_answer : Option String
deriving DecidableEq

/-- The dialogue load loop: a plain CREATE per record, appending a fresh
node every time. -/
def loadDialogues (st recs : List Dialogue) : List Dialogue :=
  recs.foldl (fun l r => l ++ [r]) st

/-- A concrete dialogue record. -/
def sampleDialogue : Dialogue :=
  Dialogue.mk (some "Is a fever of 39 dangerous")
    (some "Call your pediatrician if it persists")

/-! ## Shared lemmas about the interaction query -/

/-- Membership characterization of the interaction rows: an entry is produced
exactly when the candidate is a Medication node, the child has a TAKES
relationship to the entry's medication (active or not), and an interaction
fact links that medication to the candidate in either stored direction. -/
theorem mem_interactionRows_iff (st : Store) (cid med : String)
    (e : InteractionEntry) :
    e ∈ interactionRows st cid med ↔
      (st.meds.contains med = true ∧
        ∃ t ∈ st.takes, t.1 = cid ∧ t.2.medication = e.current_med ∧
          ∃ i ∈ st.interactions,
            ((i.med1 = e.current_med ∧ i.med2 = med) ∨
              (i.med1 = med ∧ i.med2 = e.current_med)) ∧
            i.severity = e.severity ∧ i.description = e.description) := by
  obtain ⟨ecm, esev, edesc⟩ := e
  unfold interactionRows
  by_cases hm : st.meds.contains med = true
  · simp only [hm, if_pos, true_and, List.mem_flatMap, List.mem_filter,
      List.mem_map, beq_iff_eq, Bool.or_eq_true, Bool.and_eq_true,
      InteractionEntry.mk.injEq, eq_self_iff_true]
    constructor
    · rintro ⟨p, ⟨hp, hpc⟩, i, ⟨hi, hdir⟩, hcm, hsev, hdesc⟩
      exact ⟨p, hp, hpc, hcm, i, hi, by
        rcases hdir with ⟨h1, h2⟩ | ⟨h1, h2⟩
        · exact Or.inl ⟨hcm ▸ h1, h2⟩
        · exact Or.inr ⟨h1, hcm ▸ h2⟩, hsev, hdesc⟩
    · rintro ⟨t, ht, htc, hcm, i, hi, hdir, hsev, hdesc⟩
      refine ⟨t, ⟨ht, htc⟩, i, ⟨hi, ?_⟩, hcm, hsev, hdesc⟩
      rcases hdir with ⟨h1, h2⟩ | ⟨h1, h2⟩
      · exact Or.inl ⟨hcm.symm ▸ h1, h2⟩
      · exact Or.inr ⟨h1, hcm.symm ▸ h2⟩
  · rw [if_neg hm]
    constructor
    · intro h
      exact absurd h (List.not_mem_nil _)
    · rintro ⟨hc, -⟩
      exact absurd hc hm

/-- The interactions field of the safety verdict is the interaction rows. -/
theorem safety_interactions_eq (st : Store) (cid med : String) :
    (check_medication_safety st cid med).interactions =
      interactionRows st cid med := by
  simp [check_medication_safety]

/-- Unconditional characterization of the emergency verdict: the row-absent
default of the Python wrapper coincides with the aggregate the query would
compute on an empty row set. -/
theorem check_emergency_status_eq (st : Store) (cid : String) (now : Int) :
    check_emergency_status st cid now =
      EmergencyStatus.mk
        (!(((windowedReports st cid now).map
            (fun r => NamedSeverity.mk r.name r.severity)).filter
              (fun s => decide (s.severity ≥ 8))).isEmpty)
        (((windowedReports st cid now).map
            (fun r => NamedSeverity.mk r.name r.severity)).filter
              (fun s => decide (s.severity ≥ 8)))
        ((windowedReports st cid now).map
          (fun r => NamedSeverity.mk r.name r.severity)) := by
  unfold check_emergency_status
  cases hw : windowedReports st cid now <;> simp [hw]

/-- A filtered map over the windowed rows is non-empty exactly when some row
has severity at least 8. -/
theorem critical_nonempty_iff (rows : List SymptomReport) :
    (!((rows.map (fun r => NamedSeverity.mk r.name r.severity)).filter
        (fun s => decide (s.severity ≥ 8))).isEmpty) = true ↔
      ∃ r ∈ rows, r.severity ≥ 8 := by
  rw [Bool.not_eq_true']
  constructor
  · intro h
    have hne : (rows.map (fun r => NamedSeverity.mk r.name r.severity)).filter
        (fun s => decide (s.severity ≥ 8)) ≠ [] := by
      intro hnil
      rw [hnil] at h
      simp at h
    rcases List.exists_mem_of_ne_nil _ hne with ⟨s, hs⟩
    rcases List.mem_filter.mp hs with ⟨hsm, hsev⟩
    rcases List.mem_map.mp hsm with ⟨r, hr, hre⟩
    refine ⟨r, hr, ?_⟩
    have hs8 : s.severity ≥ 8 := of_decide_eq_true hsev
    rw [← hre] at hs8
    exact hs8
  · rintro ⟨r, hr, hsev⟩
    have hmem : NamedSeverity.mk r.name r.severity ∈
        (rows.map (fun r => NamedSeverity.mk r.name r.severity)).filter
          (fun s => decide (s.severity ≥ 8)) :=
      List.mem_filter.mpr ⟨List.mem_map.mpr ⟨r, hr, rfl⟩, decide_eq_true hsev⟩
    rw [Bool.eq_false_iff]
    intro htrue
    rw [List.isEmpty_iff.mp htrue] at hmem
    exact absurd hmem (List.not_mem_nil _)

/-! ## Claim theorems: risk evaluator -/

/-- C1: for every child, `check_emergency_status` flags an emergency exactly
when some symptom report inside the 24-hour window has severity at least 8;
`critical_symptoms` keeps exactly the windowed reports of severity at least
8, `recent_symptoms` keeps all windowed reports, and an empty window yields
the all-empty non-emergency result. -/
theorem C1_emergency_status_spec :
    ∀ (st : Store) (cid : String) (now : Int),
      ((check_emergency_status st cid now).is_emergency = true ↔
        ∃ r ∈ windowedReports st cid now, r.severity ≥ 8) ∧
      (check_emergency_status st cid now).critical_symptoms =
        ((windowedReports st cid now).map
          (fun r => NamedSeverity.mk r.name r.severity)).filter
            (fun s => decide (s.severity ≥ 8)) ∧
      (check_emergency_status st cid now).recent_symptoms =
        (windowedReports st cid now).map
          (fun r => NamedSeverity.mk r.name r.severity) ∧
      (windowedReports st cid now = [] →
        check_emergency_status st cid now = EmergencyStatus.mk false [] []) := by
  intro st cid now
  refine ⟨?_, ?_, ?_, ?_⟩
  · rw [check_emergency_status_eq]
    exact critical_nonempty_iff (windowedReports st cid now)
  · rw [check_emergency_status_eq]
  · rw [check_emergency_status_eq]
  · intro hw
    rw [check_emergency_status_eq, hw]
    rfl

/-- C1 witness: on the empty store the emergency check returns the all-empty
non-emergency result. -/
theorem C1_witness :
    windowedReports emptyStore "emma_001" 0 = [] ∧
      check_emergency_status emptyStore "emma_001" 0 =
        EmergencyStatus.mk false [] [] :=
  ⟨by decide, (C1_emergency_status_spec emptyStore "emma_001" 0).2.2.2 (by decide)⟩

/-- C2: the allergy flag is raised exactly when the lowercased candidate
medication name contains, as a substring, the lowercased form of some
recorded allergy of the child; in particular the penicillin allergy flags
the candidate Amoxicillin-Penicillin (marking it unsafe) but not the
candidate Amoxicillin. -/
theorem C2_allergy_substring_spec :
    (∀ (st : Store) (cid med : String),
      (check_medication_safety st cid med).has_allergy = true ↔
        ∃ c, getChild st cid = some c ∧
          ∃ a ∈ c.allergies, containsLower med a = true) ∧
    (check_medication_safety emmaStore "emma_001" "Amoxicillin-Penicillin").has_allergy
      = true ∧
    (check_medication_safety emmaStore "emma_001" "Amoxicillin-Penicillin").safe
      = false ∧
    (check_medication_safety emmaStore "emma_001" "Amoxicillin").has_allergy
      = false := by
  refine ⟨?_, by decide, by decide, by decide⟩
  intro st cid med
  show (allergyRow st cid med).isSome = true ↔ _
  unfold allergyRow
  cases hg : getChild st cid with
  | none => simp [hg]
  | some c =>
      by_cases ha : c.allergies.any (fun a => containsLower med a) = true
      · simp only [ha, if_pos, Option.isSome_some, true_iff]
        rcases List.any_eq_true.mp ha with ⟨a, haa, hc⟩
        exact ⟨c, rfl, a, haa, hc⟩
      · simp only [Bool.not_eq_true] at ha
        simp only [ha, Bool.false_eq_true, if_false, Option.isSome_none,
          false_iff]
        rintro ⟨c', hc', a, haa, hca⟩
        injection hc' with hcc
        subst hcc
        have hany : c.allergies.any (fun a => containsLower med a) = true :=
          List.any_eq_true.mpr ⟨a, haa, hca⟩
        rw [hany] at ha
        exact absurd ha (by decide)

/-- C3: the returned verdict always satisfies
safe = (not has_allergy) and (interactions empty). -/
theorem C3_safe_equation :
    ∀ (st : Store) (cid med : String),
      (check_medication_safety st cid med).safe =
        (!(check_medication_safety st cid med).has_allergy &&
          (check_medication_safety st cid med).interactions.isEmpty) := by
  intro st cid med
  unfold check_medication_safety
  cases allergyRow st cid med <;> simp

/-- C4 counterexample: in `inactiveTakesStore` every TAKES relationship is
inactive, yet the safety check still reports the Aspirin interaction; the
interaction query never consults the active flag. -/
theorem C4_counterexample :
    inactiveTakesStore.takes.all (fun t => !t.2.active) = true ∧
      (check_medication_safety inactiveTakesStore "liam_001" "Ibuprofen").interactions =
        [InteractionEntry.mk "Aspirin" "moderate" "Increased bleeding risk"] :=
  ⟨by decide, by decide⟩

/-- C4 amended: the interactions list contains an entry exactly for those
medications the child takes via any TAKES relationship, active or not, for
which an interaction fact with the candidate is stored in either direction,
provided the candidate exists as a Medication node. -/
theorem C4_interactions_membership :
    ∀ (st : Store) (cid med : String) (e : InteractionEntry),
      e ∈ (check_medication_safety st cid med).interactions ↔
        (st.meds.contains med = true ∧
          ∃ t ∈ st.takes, t.1 = cid ∧ t.2.medication = e.current_med ∧
            ∃ i ∈ st.interactions,
              ((i.med1 = e.current_med ∧ i.med2 = med) ∨
                (i.med1 = med ∧ i.med2 = e.current_med)) ∧
              i.severity = e.severity ∧ i.description = e.description) := by
  intro st cid med e
  rw [safety_interactions_eq]
  exact mem_interactionRows_iff st cid med e

/-- C5: an interaction fact stored between two medications, in either
direction, is detected by the safety check whenever one of the two is taken
by the child (in any TAKES relationship) and the other is the candidate. -/
theorem C5_symmetric_detection :
    ∀ (st : Store) (cid A B : String) (t : TakesRel) (i : InteractionFact),
      (cid, t) ∈ st.takes → t.medication = A → i ∈ st.interactions →
      ((i.med1 = A ∧ i.med2 = B) ∨ (i.med1 = B ∧ i.med2 = A)) →
      st.meds.contains B = true →
      ∃ e ∈ (check_medication_safety st cid B).interactions,
        e.current_med = A ∧ e.severity = i.severity ∧
          e.description = i.description := by
  intro st cid A B t i ht hA hi hdir hB
  refine ⟨InteractionEntry.mk A i.severity i.description, ?_, rfl, rfl, rfl⟩
  rw [safety_interactions_eq, mem_interactionRows_iff]
  exact ⟨hB, (cid, t), ht, rfl, hA, i, hi, hdir, rfl, rfl⟩

/-- C5 witness: Emma takes Ibuprofen, the fact is stored as
Ibuprofen INTERACTS_WITH Aspirin, and the check on candidate Aspirin
reports the Ibuprofen interaction. -/
theorem C5_witness :
    ∃ e ∈ (check_medication_safety emmaStore "emma_001" "Aspirin").interactions,
      e.current_med = "Ibuprofen" ∧ e.severity = "moderate" ∧
        e.description = "Increased bleeding risk" :=
  C5_symmetric_detection emmaStore "emma_001" "Ibuprofen" "Aspirin"
    (TakesRel.mk "Ibuprofen" "100mg" "as needed" "2025-01-01" true)
    (InteractionFact.mk "Ibuprofen" "Aspirin" "moderate" "Increased bleeding risk")
    (by decide) rfl (by decide) (Or.inl ⟨rfl, rfl⟩) (by decide)

/-- C10: `log_symptom` performs no range validation: called with severity 11
on an existing child it stores a report whose severity is 11, outside the
documented 1 to 10 range. -/
theorem C10_severity_not_validated :
    ∃ p ∈ (log_symptom emmaStore "emma_001" "fever_c" 11 "" 100).symptoms,
      p.2.severity = 11 ∧ ¬(1 ≤ p.2.severity ∧ p.2.severity ≤ 10) := by
  decide

/-! ## Substring facts used by the fallback claim -/

/-- A character list is an initial run of itself. -/
theorem startsWithChars_self (l : List Char) : startsWithChars l l = true := by
  induction l with
  | nil => rfl
  | cons a as ih => simp [startsWithChars, ih]

/-- A suffix occurs as a contiguous part. -/
theorem hasSubChars_append_left (x n : List Char) :
    hasSubChars n (x ++ n) = true := by
  induction x with
  | nil =>
      cases n with
      | nil => rfl
      | cons c cs => simp [hasSubChars, startsWithChars_self]
  | cons c cs ih => simp [hasSubChars, ih]

/-- Character list of a concatenation. -/
theorem strToList_append (a b : String) :
    (a ++ b).toList = a.toList ++ b.toList := by
  simp [String.toList, String.data_append]

/-! ## Section-block lemmas for the rendering -/

/-- The child block only appends to the accumulator. -/
theorem childStep_append (c : Option ChildInfo) (prev : List String) :
    childStep c prev = prev ++ childLines ⟨c, none, none, none, none, none⟩ := by
  cases c <;> simp [childStep, childLines] <;> split_ifs <;> simp

/-- The medications block only appends to the accumulator. -/
theorem medStep_append (m : Option (List MedInfo)) (prev : List String) :
    medStep m prev = prev ++ medLines ⟨none, m, none, none, none, none⟩ := by
  rcases m with _ | (_ | ⟨m0, ms⟩) <;> simp [medStep, medLines]

/-- The symptoms block only appends to the accumulator. -/
theorem sympStep_append (s : Option (List SympInfo)) (prev : List String) :
    sympStep s prev = prev ++ sympLines ⟨none, none, s, none, none, none⟩ := by
  rcases s with _ | (_ | ⟨s0, ss⟩) <;> simp [sympStep, sympLines]

/-- The emergency block only appends to the accumulator. -/
theorem emergStep_append (e : Option EmergencyInfo) (prev : List String) :
    emergStep e prev = prev ++ emergLines ⟨none, none, none, e, none, none⟩ := by
  cases e <;> simp [emergStep, emergLines] <;> split_ifs <;> simp

/-- The appointments block only appends to the accumulator. -/
theorem apptStep_append (a : Option (List ApptInfo)) (prev : List String) :
    apptStep a prev = prev ++ apptLines ⟨none, none, none, none, a, none⟩ := by
  rcases a with _ | (_ | ⟨a0, as_⟩) <;> simp [apptStep, apptLines]

/-- The safety block only appends to the accumulator. -/
theorem safetyStep_append (f : Option SafetyInfo) (prev : List String) :
    safetyStep f prev = prev ++ safetyLines ⟨none, none, none, none, none, f⟩ := by
  cases f <;> simp [safetyStep, safetyLines] <;> split_ifs <;> simp

/-- The sections accumulator decomposes into the six blocks in source
order. -/
theorem graphSections_decomp (g : GraphData) :
    graphSections g =
      childLines g ++ medLines g ++ sympLines g ++ emergLines g ++
        apptLines g ++ safetyLines g := by
  obtain ⟨c, m, s, e, a, f⟩ := g
  show safetyStep f (apptStep a (emergStep e (sympStep s (medStep m (childStep c []))))) = _
  rw [childStep_append, medStep_append, sympStep_append, emergStep_append,
    apptStep_append, safetyStep_append]
  simp only [childLines, medLines, sympLines, emergLines, apptLines,
    safetyLines, List.nil_append, List.append_assoc]

/-- The child block is empty exactly when the child key is absent. -/
theorem childLines_empty_iff (g : GraphData) :
    childLines g = [] ↔ g.child = none := by
  obtain ⟨c, m, s, e, a, f⟩ := g
  cases c <;> simp [childLines] <;> split_ifs <;> simp

/-- The medications block is empty exactly when the key is absent or the
list is empty. -/
theorem medLines_empty_iff (g : GraphData) :
    medLines g = [] ↔ (g.medications = none ∨ g.medications = some []) := by
  obtain ⟨c, m, s, e, a, f⟩ := g
  rcases m with _ | (_ | ⟨m0, ms⟩) <;> simp [medLines]

/-- The symptoms block is empty exactly when the key is absent or the list
is empty. -/
theorem sympLines_empty_iff (g : GraphData) :
    sympLines g = [] ↔ (g.symptoms = none ∨ g.symptoms = some []) := by
  obtain ⟨c, m, s, e, a, f⟩ := g
  rcases s with _ | (_ | ⟨s0, ss⟩) <;> simp [sympLines]

/-- The emergency block is empty exactly when the key is absent or the
verdict is not an emergency. -/
theorem emergLines_empty_iff (g : GraphData) :
    emergLines g = [] ↔
      (g.emergency_status = none ∨
        ∃ e, g.emergency_status = some e ∧ e.is_emergency = false) := by
  obtain ⟨c, m, s, e, a, f⟩ := g
  rcases e with _ | e
  · simp [emergLines]
  · cases he : e.is_emergency <;> simp [emergLines, he]

/-- The appointments block is empty exactly when the key is absent or the
list is empty. -/
theorem apptLines_empty_iff (g : GraphData) :
    apptLines g = [] ↔ (g.appointments = none ∨ g.appointments = some []) := by
  obtain ⟨c, m, s, e, a, f⟩ := g
  rcases a with _ | (_ | ⟨a0, as_⟩) <;> simp [apptLines]

/-- The safety block is empty exactly when the key is absent or the verdict
is safe (the safe key being read with default True). -/
theorem safetyLines_empty_iff (g : GraphData) :
    safetyLines g = [] ↔
      (g.medication_safety = none ∨
        ∃ s, g.medication_safety = some s ∧ s.safe.getD true = true) := by
  obtain ⟨c, m, s, e, a, f⟩ := g
  rcases f with _ | f
  · simp [safetyLines]
  · cases hs : f.safe.getD true <;> simp [safetyLines, hs] <;> split_ifs <;> simp

/-! ## Claim theorems: prompt assembler -/

/-- C6: a blank question, empty or whitespace-only, makes `create_query`
fail with the empty-query error before any interpolation, for every
template interpolation function. -/
theorem C6_blank_query_error :
    ∀ (fmt : String → String → String → String → String → Option String)
      (currentDate : String) (profile context : Option String)
      (graphData : Option GraphData) (q : String),
      isBlankQuery q = true →
      createQueryWith fmt currentDate profile context graphData q =
        Except.error QueryError.emptyQuery := by
  intro fmt currentDate profile context graphData q hq
  unfold createQueryWith
  rw [if_pos hq]

/-- C6 witness: the whitespace-only question is rejected even under an
interpolation that would succeed. -/
theorem C6_witness :
    isBlankQuery "   " = true ∧
      createQueryWith (fun d p c g q => some (d ++ p ++ c ++ g ++ q))
          "2025-01-01 00:00:00" none none none "   " =
        Except.error QueryError.emptyQuery :=
  ⟨by decide,
    C6_blank_query_error (fun d p c g q => some (d ++ p ++ c ++ g ++ q))
      "2025-01-01 00:00:00" none none none "   " (by decide)⟩

/-- C7: when the question is not blank and the template interpolation
fails, `create_query` does not raise: it returns the degraded concatenation
of the four rendered inputs, and that fallback contains the question text
as a substring. -/
theorem C7_render_fallback :
    ∀ (fmt : String → String → String → String → String → Option String)
      (currentDate : String) (profile context : Option String)
      (graphData : Option GraphData) (q : String),
      isBlankQuery q = false →
      fmt currentDate (profileStr profile) (contextBlock context)
        (format_graph_data graphData) q = none →
      createQueryWith fmt currentDate profile context graphData q =
        Except.ok (profileStr profile ++ "\n\n" ++ contextBlock context ++
          "\n\n" ++ format_graph_data graphData ++ "\n\n" ++ q) ∧
      hasSubChars q.toList
        (profileStr profile ++ "\n\n" ++ contextBlock context ++ "\n\n" ++
          format_graph_data graphData ++ "\n\n" ++ q).toList = true := by
  intro fmt currentDate profile context graphData q hq hf
  constructor
  · unfold createQueryWith
    rw [if_neg (by rw [hq]; exact Bool.false_ne_true)]
    simp only [hf]
  · rw [strToList_append]
    exact hasSubChars_append_left _ _

/-- C7 witness: with an always-failing interpolation, a concrete question
survives into the fallback output. -/
theorem C7_witness :
    createQueryWith (fun _ _ _ _ _ => none) "2025-01-01 00:00:00" none none
        none "How much medicine" =
      Except.ok (profileStr none ++ "\n\n" ++ contextBlock none ++ "\n\n" ++
        format_graph_data none ++ "\n\n" ++ "How much medicine") ∧
    hasSubChars ("How much medicine").toList
      (profileStr none ++ "\n\n" ++ contextBlock none ++ "\n\n" ++
        format_graph_data none ++ "\n\n" ++ "How much medicine").toList = true :=
  C7_render_fallback (fun _ _ _ _ _ => none) "2025-01-01 00:00:00" none none
    none "How much medicine" (by decide) rfl

/-- C8: the rendered graph-data sections decompose, in the fixed order
child, medications, symptoms, emergency status, appointments and
medication-safety alert, and each block is omitted entirely exactly when its
data is absent. -/
theorem C8_sections_order_and_omission :
    ∀ g : GraphData,
      graphSections g =
        childLines g ++ medLines g ++ sympLines g ++ emergLines g ++
          apptLines g ++ safetyLines g ∧
      (childLines g = [] ↔ g.child = none) ∧
      (medLines g = [] ↔ (g.medications = none ∨ g.medications = some [])) ∧
      (sympLines g = [] ↔ (g.symptoms = none ∨ g.symptoms = some [])) ∧
      (emergLines g = [] ↔
        (g.emergency_status = none ∨
          ∃ e, g.emergency_status = some e ∧ e.is_emergency = false)) ∧
      (apptLines g = [] ↔ (g.appointments = none ∨ g.appointments = some [])) ∧
      (safetyLines g = [] ↔
        (g.medication_safety = none ∨
          ∃ s, g.medication_safety = some s ∧ s.safe.getD true = true)) :=
  fun g =>
    ⟨graphSections_decomp g, childLines_empty_iff g, medLines_empty_iff g,
      sympLines_empty_iff g, emergLines_empty_iff g, apptLines_empty_iff g,
      safetyLines_empty_iff g⟩

/-! ## Loader lemmas -/

/-- Lookup in the empty node list. -/
theorem lookupBy_nil {α : Type} (key : α → String) (x : String) :
    lookupBy key ([] : List α) x = none := rfl

/-- Lookup against a cons cell. -/
theorem lookupBy_cons {α : Type} (key : α → String) (h : α) (t : List α)
    (x : String) :
    lookupBy key (h :: t) x = if key h == x then some h else lookupBy key t x := by
  by_cases hx : key h = x <;>
    simp [lookupBy, List.find?_cons, beq_iff_eq, hx]

/-- Lookup after an upsert: the upserted key now maps to the new record,
every other key is untouched. -/
theorem lookupBy_upsertBy {α : Type} (key : α → String) (l : List α) (r : α)
    (x : String) :
    lookupBy key (upsertBy key l r) x =
      if key r == x then some r else lookupBy key l x := by
  induction l with
  | nil => simp [upsertBy, lookupBy_cons, lookupBy_nil]
  | cons h t ih =>
      by_cases hh : key h = key r
      · rw [upsertBy, if_pos (by simp [hh])]
        rw [lookupBy_cons, lookupBy_cons]
        by_cases hx : key r = x
        · simp [hx]
        · simp [hx, hh]
      · rw [upsertBy, if_neg (by simp [hh])]
        rw [lookupBy_cons, lookupBy_cons, ih]
        by_cases hx : key h = x
        · have : ¬ key r = x := fun hrx => hh (hx ▸ hrx ▸ rfl)
          simp [hx, this]
        · simp [hx]

/-- find? distributes over append. -/
theorem findQ_append {α : Type} (p : α → Bool) (l₁ l₂ : List α) :
    (l₁ ++ l₂).find? p =
      match l₁.find? p with
      | some a => some a
      | none => l₂.find? p := by
  induction l₁ with
  | nil => simp
  | cons h t ih =>
      rcases hb : p h with _ | _ <;> simp [List.find?_cons, hb, ih]

/-- Lookup after a whole load loop: the last record carrying the key wins,
keys not written keep their previous binding. -/
theorem lookupBy_loadBy {α : Type} (key : α → String) (recs : List α) :
    ∀ (st : List α) (x : String),
      lookupBy key (loadBy key st recs) x =
        match recs.reverse.find? (fun r => key r == x) with
        | some r => some r
        | none => lookupBy key st x := by
  induction recs with
  | nil => intro st x; rfl
  | cons r rs ih =>
      intro st x
      rw [show loadBy key st (r :: rs) = loadBy key (upsertBy key st r) rs from rfl]
      rw [ih]
      rw [List.reverse_cons, findQ_append]
      cases rs.reverse.find? (fun r => key r == x) with
      | some a => rfl
      | none =>
          rw [lookupBy_upsertBy]
          rcases hb : (key r == x) with _ | _ <;> simp [List.find?_cons, hb]

/-- Re-running a load loop changes no binding. -/
theorem loadBy_twice_lookup {α : Type} (key : α → String) (st recs : List α)
    (x : String) :
    lookupBy key (loadBy key (loadBy key st recs) recs) x =
      lookupBy key (loadBy key st recs) x := by
  rw [lookupBy_loadBy key recs (loadBy key st recs) x,
    lookupBy_loadBy key recs st x]
  cases hf : recs.reverse.find? (fun r => key r == x) <;> simp [hf]

/-- Presence after an upsert. -/
theorem isSome_lookupBy_upsertBy {α : Type} (key : α → String) (l : List α)
    (r : α) (x : String) :
    (lookupBy key (upsertBy key l r) x).isSome =
      ((key r == x) || (lookupBy key l x).isSome) := by
  rw [lookupBy_upsertBy]
  by_cases hx : key r = x <;> simp [hx]

/-- Upserting a key already present appends nothing. -/
theorem length_upsertBy_of_present {α : Type} (key : α → String) (l : List α)
    (r : α) (h : (lookupBy key l (key r)).isSome = true) :
    (upsertBy key l r).length = l.length := by
  induction l with
  | nil => simp [lookupBy_nil] at h
  | cons a t ih =>
      by_cases ha : key a = key r
      · rw [upsertBy, if_pos (by simp [ha])]
        simp
      · rw [upsertBy, if_neg (by simp [ha])]
        rw [lookupBy_cons] at h
        simp only [List.length_cons]
        rw [ih (by simpa [ha] using h)]

/-- Every loaded record is present afterwards. -/
theorem present_of_mem_loadBy {α : Type} (key : α → String) (st recs : List α)
    (r : α) (hr : r ∈ recs) :
    (lookupBy key (loadBy key st recs) (key r)).isSome = true := by
  rw [lookupBy_loadBy]
  have hmem : r ∈ recs.reverse := List.mem_reverse.mpr hr
  have hsome : (recs.reverse.find? (fun q => key q == key r)).isSome = true := by
    rw [List.find?_isSome]
    exact ⟨r, hmem, by simp⟩
  cases hf : recs.reverse.find? (fun q => key q == key r) with
  | some a => simp
  | none => rw [hf] at hsome; simp at hsome

/-- A load loop whose keys are all present appends nothing. -/
theorem length_loadBy_of_all_present {α : Type} (key : α → String)
    (recs : List α) :
    ∀ st : List α, (∀ r ∈ recs, (lookupBy key st (key r)).isSome = true) →
      (loadBy key st recs).length = st.length := by
  induction recs with
  | nil => intro st _; rfl
  | cons r rs ih =>
      intro st hall
      rw [show loadBy key st (r :: rs) = loadBy key (upsertBy key st r) rs from rfl]
      rw [ih (upsertBy key st r) ?_, length_upsertBy_of_present]
      · exact hall r (List.mem_cons_self r rs)
      · intro q hq
        rw [isSome_lookupBy_upsertBy]
        rw [hall q (List.mem_cons_of_mem r hq)]
        simp

/-- Re-running a load loop creates no node. -/
theorem loadBy_twice_length {α : Type} (key : α → String) (st recs : List α) :
    (loadBy key (loadBy key st recs) recs).length =
      (loadBy key st recs).length :=
  length_loadBy_of_all_present key recs (loadBy key st recs)
    (fun r hr => present_of_mem_loadBy key st recs r hr)

/-- A merged relationship is present afterwards. -/
theorem mem_mergeRel_self (l : List (String × String)) (r : String × String) :
    r ∈ mergeRel l r := by
  unfold mergeRel
  by_cases hc : l.contains r
  · rw [if_pos hc]
    exact List.mem_of_elem_eq_true hc
  · rw [if_neg hc]
    simp

/-- Merging preserves the existing relationships. -/
theorem mem_mergeRel_of_mem (l : List (String × String)) (r x : String × String)
    (hx : x ∈ l) : x ∈ mergeRel l r := by
  unfold mergeRel
  by_cases hc : l.contains r
  · rwa [if_pos hc]
  · rw [if_neg hc]
    exact List.mem_append_left _ hx

/-- A relationship loop preserves the existing relationships. -/
theorem mem_loadRels_left (rs : List (String × String)) :
    ∀ (l : List (String × String)) (x : String × String), x ∈ l →
      x ∈ loadRels l rs := by
  induction rs with
  | nil => intro l x hx; exact hx
  | cons r rt ih =>
      intro l x hx
      exact ih (mergeRel l r) x (mem_mergeRel_of_mem l r x hx)

/-- Every merged relationship is present after the loop. -/
theorem mem_loadRels_of_mem (rs : List (String × String)) :
    ∀ (l : List (String × String)) (x : String × String), x ∈ rs →
      x ∈ loadRels l rs := by
  induction rs with
  | nil => intro l x hx; cases hx
  | cons r rt ih =>
      intro l x hx
      rcases List.mem_cons.mp hx with hx | hx
      · subst hx
        exact mem_loadRels_left rt (mergeRel l x) x (mem_mergeRel_self l x)
      · exact ih (mergeRel l r) x hx

/-- A relationship loop whose relationships are all present is a no-op. -/
theorem loadRels_of_all_mem (rs : List (String × String)) :
    ∀ l : List (String × String), (∀ x ∈ rs, x ∈ l) → loadRels l rs = l := by
  induction rs with
  | nil => intro l _; rfl
  | cons r rt ih =>
      intro l hall
      have hr : r ∈ l := hall r (List.mem_cons_self r rt)
      have hm : mergeRel l r = l := by
        unfold mergeRel
        rw [if_pos (List.elem_eq_true_of_mem hr)]
      rw [show loadRels l (r :: rt) = loadRels (mergeRel l r) rt from rfl, hm]
      exact ih l (fun x hx => hall x (List.mem_cons_of_mem r hx))

/-- Re-running a relationship loop changes nothing at all. -/
theorem loadRels_twice (l rs : List (String × String)) :
    loadRels (loadRels l rs) rs = loadRels l rs :=
  loadRels_of_all_mem rs (loadRels l rs)
    (fun x hx => mem_loadRels_of_mem rs l x hx)

/-- A two-node loop is the three independent loops on its components. -/
theorem twoNodeLoad_eq {α β ρ : Type} (keyA : α → String) (keyB : β → String)
    (mkA : ρ → α) (mkB : ρ → β) (mkRel : ρ → String × String)
    (recs : List ρ) :
    ∀ st : TwoNodeState α β,
      twoNodeLoad keyA keyB mkA mkB mkRel st recs =
        { nodesA := loadBy keyA st.nodesA (recs.map mkA),
          nodesB := loadBy keyB st.nodesB (recs.map mkB),
          rels := loadRels st.rels (recs.map mkRel) } := by
  induction recs with
  | nil => intro st; rfl
  | cons r rs ih =>
      intro st
      rw [show twoNodeLoad keyA keyB mkA mkB mkRel st (r :: rs) =
        twoNodeLoad keyA keyB mkA mkB mkRel
          (twoNodeStep keyA keyB mkA mkB mkRel st r) rs from rfl]
      rw [ih]
      rfl

/-- Re-running a two-node loop changes no binding, creates no node and
leaves the relationships unchanged. -/
theorem twoNodeLoad_twice {α β ρ : Type} (keyA : α → String)
    (keyB : β → String) (mkA : ρ → α) (mkB : ρ → β)
    (mkRel : ρ → String × String) (st : TwoNodeState α β) (recs : List ρ) :
    (∀ x, lookupBy keyA (twoNodeLoad keyA keyB mkA mkB mkRel
        (twoNodeLoad keyA keyB mkA mkB mkRel st recs) recs).nodesA x =
      lookupBy keyA (twoNodeLoad keyA keyB mkA mkB mkRel st recs).nodesA x) ∧
    (∀ x, lookupBy keyB (twoNodeLoad keyA keyB mkA mkB mkRel
        (twoNodeLoad keyA keyB mkA mkB mkRel st recs) recs).nodesB x =
      lookupBy keyB (twoNodeLoad keyA keyB mkA mkB mkRel st recs).nodesB x) ∧
    (twoNodeLoad keyA keyB mkA mkB mkRel
        (twoNodeLoad keyA keyB mkA mkB mkRel st recs) recs).nodesA.length =
      (twoNodeLoad keyA keyB mkA mkB mkRel st recs).nodesA.length ∧
    (twoNodeLoad keyA keyB mkA mkB mkRel
        (twoNodeLoad keyA keyB mkA mkB mkRel st recs) recs).nodesB.length =
      (twoNodeLoad keyA keyB mkA mkB mkRel st recs).nodesB.length ∧
    (twoNodeLoad keyA keyB mkA mkB mkRel
        (twoNodeLoad keyA keyB mkA mkB mkRel st recs) recs).rels =
      (twoNodeLoad keyA keyB mkA mkB mkRel st recs).rels := by
  rw [twoNodeLoad_eq, twoNodeLoad_eq]
  refine ⟨fun x => ?_, fun x => ?_, ?_, ?_, ?_⟩
  · exact loadBy_twice_lookup keyA st.nodesA (recs.map mkA) x
  · exact loadBy_twice_lookup keyB st.nodesB (recs.map mkB) x
  · exact loadBy_twice_length keyA st.nodesA (recs.map mkA)
  · exact loadBy_twice_length keyB st.nodesB (recs.map mkB)
  · exact loadRels_twice st.rels (recs.map mkRel)

/-- The dialogue loop appends its records wholesale. -/
theorem loadDialogues_eq (recs : List Dialogue) :
    ∀ st : List Dialogue, loadDialogues st recs = st ++ recs := by
  induction recs with
  | nil => intro st; simp [loadDialogues]
  | cons r rs ih =>
      intro st
      rw [show loadDialogues st (r :: rs) = loadDialogues (st ++ [r]) rs from rfl]
      rw [ih]
      simp

/-! ## Claim theorems: dataset ingestion -/

/-- C9 counterexample: re-running the dialogue load loop on one record does
not leave the store unchanged; it appends a second copy of the record. -/
theorem C9_counterexample :
    loadDialogues (loadDialogues [] [sampleDialogue]) [sampleDialogue] ≠
        loadDialogues [] [sampleDialogue] ∧
      (loadDialogues (loadDialogues [] [sampleDialogue])
        [sampleDialogue]).length = 2 :=
  ⟨by decide, by decide⟩

/-- C9 amended: the medication-guide, symptom-rule and aftercare loops are
idempotent keyed upserts: a second run changes no binding, creates no node
and leaves every merged relationship list unchanged; the dialogue loop,
built on CREATE, instead appends a second copy of all its records on every
re-run. -/
theorem C9_load_idempotence :
    (∀ (st recs : List MedGuide) (x : String),
      lookupBy MedGuide.drug
          (loadMedicationGuides (loadMedicationGuides st recs) recs) x =
        lookupBy MedGuide.drug (loadMedicationGuides st recs) x) ∧
    (∀ st recs : List MedGuide,
      (loadMedicationGuides (loadMedicationGuides st recs) recs).length =
        (loadMedicationGuides st recs).length) ∧
    (∀ (st : TwoNodeState SymNode SymptomRuleRec)
        (recs : List SymptomRuleRec),
      (∀ x, lookupBy SymNode.name
          (loadSymptomRules (loadSymptomRules st recs) recs).nodesA x =
        lookupBy SymNode.name (loadSymptomRules st recs).nodesA x) ∧
      (∀ x, lookupBy SymptomRuleRec.symptom_name
          (loadSymptomRules (loadSymptomRules st recs) recs).nodesB x =
        lookupBy SymptomRuleRec.symptom_name
          (loadSymptomRules st recs).nodesB x) ∧
      (loadSymptomRules (loadSymptomRules st recs) recs).nodesA.length =
        (loadSymptomRules st recs).nodesA.length ∧
      (loadSymptomRules (loadSymptomRules st recs) recs).nodesB.length =
        (loadSymptomRules st recs).nodesB.length ∧
      (loadSymptomRules (loadSymptomRules st recs) recs).rels =
        (loadSymptomRules st recs).rels) ∧
    (∀ (st : TwoNodeState CondNode AfterCareGuide)
        (recs : List AftercareRecord),
      (∀ x, lookupBy CondNode.name
          (loadAftercare (loadAftercare st recs) recs).nodesA x =
        lookupBy CondNode.name (loadAftercare st recs).nodesA x) ∧
      (∀ x, lookupBy AfterCareGuide.condition
          (loadAftercare (loadAftercare st recs) recs).nodesB x =
        lookupBy AfterCareGuide.condition (loadAftercare st recs).nodesB x) ∧
      (loadAftercare (loadAftercare st recs) recs).nodesA.length =
        (loadAftercare st recs).nodesA.length ∧
      (loadAftercare (loadAftercare st recs) recs).nodesB.length =
        (loadAftercare st recs).nodesB.length ∧
      (loadAftercare (loadAftercare st recs) recs).rels =
        (loadAftercare st recs).rels) ∧
    (∀ st recs : List Dialogue,
      loadDialogues (loadDialogues st recs) recs = (st ++ recs) ++ recs) := by
  refine ⟨?_, ?_, ?_, ?_, ?_⟩
  · intro st recs x
    exact loadBy_twice_lookup MedGuide.drug st recs x
  · intro st recs
    exact loadBy_twice_length MedGuide.drug st recs
  · intro st recs
    exact twoNodeLoad_twice SymNode.name SymptomRuleRec.symptom_name
      (fun r => SymNode.mk r.symptom_name "dataset") (fun r => r)
      (fun r => (r.symptom_name, r.symptom_name)) st recs
  · intro st recs
    exact twoNodeLoad_twice CondNode.name AfterCareGuide.condition
      (fun r => CondNode.mk r.condition r.category r.age_range)
      (fun r => AfterCareGuide.mk r.condition r.overview r.pain_management
        r.activity r.diet r.wound_care r.red_flags r.follow_up)
      (fun r => (r.condition, r.condition)) st recs
  · intro st recs
    rw [loadDialogues_eq recs st, loadDialogues_eq recs (st ++ recs)]
